import Mathlib

/-!
# Verification of the UOR-evolution MCP VM engine

A shallow embedding of the VM instruction engine (`VMTools`, file
`vm-tools.ts`) and of the MCP tool dispatcher
(`mcp-server.ts`, `CallToolRequestSchema` handler), together with
theorems settling the behavioural claims about them.

Conventions of the embedding:
* JavaScript numbers that only ever hold integers are modelled as `Int`
  (all register arithmetic in the source is integral).
* JavaScript exceptions are modelled with `Except String`; the thrown
  `Error`'s `message` is the `String`.
* Wall-clock data (the `timestamp` fields) and the randomly generated
  `vm_id` are omitted: no claim mentions them and they carry no program
  logic.
* The upstream HTTP collaborator (`uorInterface`) is called by the
  handlers before any state mutation and its result is only spread into
  the JSON response; here the call is modelled as succeeding, which is
  the hypothesis under which every claim about the engine state speaks
  ("successful calls").
-/

namespace UOREvolution

/-- The six named registers of `vmState.registers`. -/
structure Registers where
  PC : Int
  SP : Int
  ACC : Int
  X : Int
  Y : Int
  Z : Int
deriving Repr, DecidableEq

/-- The four flags of `vmState.flags`. -/
structure Flags where
  zero : Bool
  carry : Bool
  overflow : Bool
  consciousness : Bool
deriving Repr, DecidableEq

/-- The configuration merged in `initializeVM`: `{memory_size: 1024,
stack_size: 256, ...config}`.  A `none` field means the caller did not
override the default.  The non-numeric config fields
(`instruction_set`, `consciousness_enabled`, `quantum_mode`) are
carried by no claim and influence no computation, so they are omitted. -/
structure InitConfig where
  memory_size : Option Nat := none
  stack_size : Option Nat := none
deriving Repr, DecidableEq

/-- Effective memory size after merging with the default `1024`. -/
def InitConfig.memorySize (c : InitConfig) : Nat := c.memory_size.getD 1024

/-- Effective stack size after merging with the default `256`. -/
def InitConfig.stackSize (c : InitConfig) : Nat := c.stack_size.getD 256

/-- The object stored in `this.vmState` by `initializeVM`. -/
structure VMState where
  initialized : Bool
  config : InitConfig
  memory : List Int
  stack : List Int
  registers : Registers
  flags : Flags
deriving Repr, DecidableEq

/-- One entry of `this.executionHistory` (timestamp omitted, see the
file header). -/
structure ExecutionRecord where
  instruction : String
  state_before : Registers
  state_after : Registers
  result : String
deriving Repr, DecidableEq

/-- The mutable fields of the `VMTools` class: `vmState` (initially
`null`, modelled `none`) and `executionHistory` (initially `[]`). -/
structure VMToolsState where
  vmState : Option VMState
  executionHistory : List ExecutionRecord
deriving Repr, DecidableEq

/-- A freshly constructed `VMTools` object. -/
def VMToolsState.fresh : VMToolsState :=
  { vmState := none, executionHistory := [] }

/-! ## JavaScript primitives used by `parseAndExecute` -/

/-- The whitespace skipped by JavaScript `parseInt`. -/
def jsWhitespace (c : Char) : Bool :=
  c = ' ' || c = '\t' || c = '\n' || c = '\r' || c = '\x0b' || c = '\x0c'

/-- Hexadecimal digit test, for `parseInt`'s `0x` prefix handling. -/
def isHexDigit (c : Char) : Bool :=
  c.isDigit || ('a' ≤ c && c ≤ 'f') || ('A' ≤ c && c ≤ 'F')

/-- Value of a hexadecimal digit. -/
def hexVal (c : Char) : Nat :=
  if c.isDigit then c.toNat - 48
  else if 'a' ≤ c && c ≤ 'f' then c.toNat - 87
  else c.toNat - 55

/-- Accumulate a digit list in the given base. -/
def digitsVal (base : Nat) (dv : Char → Nat) (ds : List Char) : Nat :=
  ds.foldl (fun a c => a * base + dv c) 0

/-- JavaScript `parseInt(s)` with no radix argument: skip leading
whitespace, read an optional sign, then the longest prefix of decimal
digits (or, after a `0x`/`0X` prefix, hexadecimal digits); `none` is
`NaN` (no digits found). -/
def jsParseIntStr (s : String) : Option Int :=
  let cs := s.data.dropWhile jsWhitespace
  let signed : Int × List Char :=
    match cs with
    | c :: rest =>
        if c = '-' then (-1, rest) else if c = '+' then (1, rest) else (1, cs)
    | [] => (1, [])
  let sign := signed.1
  let body := signed.2
  match body with
  | '0' :: c :: rest =>
      if c = 'x' || c = 'X' then
        let ds := rest.takeWhile isHexDigit
        if ds.isEmpty then none
        else some (sign * (digitsVal 16 hexVal ds : Nat))
      else
        let ds := body.takeWhile Char.isDigit
        some (sign * (digitsVal 10 (fun d => d.toNat - 48) ds : Nat))
  | _ =>
      let ds := body.takeWhile Char.isDigit
      if ds.isEmpty then none
      else some (sign * (digitsVal 10 (fun d => d.toNat - 48) ds : Nat))

/-- `parseInt(operands[0])` where the operand may be absent
(`operands[0] === undefined` gives `NaN`). -/
def jsParseInt (o : Option String) : Option Int :=
  o.bind jsParseIntStr

/-- JavaScript `a || b` on numbers, where `a` is the result of a
`parseInt`: `NaN` (`none`) and `0` are falsy, anything else is itself. -/
def jsOrInt (a : Option Int) (b : Int) : Int :=
  match a with
  | none => b
  | some v => if v = 0 then b else v

/-! ## The instruction engine -/

/-- Split a character list at every single space, keeping empty
segments, as JavaScript `split(' ')` does (`acc` holds the reversed
current segment). -/
def splitSpaceAux : List Char → List Char → List (List Char)
  | [], acc => [acc.reverse]
  | c :: cs, acc =>
      if c = ' ' then acc.reverse :: splitSpaceAux cs []
      else splitSpaceAux cs (c :: acc)

/-- JavaScript `instruction.split(' ')`: never empty, `""` gives
`[""]`. -/
def jsSplitSpace (s : String) : List String :=
  (splitSpaceAux s.data []).map String.mk

/-- JavaScript `toUpperCase()`.  The source only ever feeds ASCII
opcodes, for which `Char.toUpper` agrees with `toUpperCase`. -/
def jsToUpper (s : String) : String :=
  String.mk (s.data.map Char.toUpper)

/-- `parts[0].toUpperCase()` for `parts = instruction.split(' ')`. -/
def opcodeOf (instruction : String) : String :=
  jsToUpper ((jsSplitSpace instruction).headD "")

/-- `parts.slice(1)`: the operand tokens. -/
def operandsOf (instruction : String) : List String :=
  (jsSplitSpace instruction).drop 1

/-- `parseInt(operands[0]) || 0`, the operand value used by `LOAD`
and `JMP`. -/
def loadJmpValue (operands : List String) : Int :=
  jsOrInt (jsParseInt operands.head?) 0

/-- `parseInt(operands[0]) || registers.X`, the operand value used by
`ADD` (`addValue`) and `SUB` (`subValue`). -/
def addSubValue (registers : Registers) (operands : List String) : Int :=
  jsOrInt (jsParseInt operands.head?) registers.X

/-- Result of `parseAndExecute`: `{ registers, flags, result }`. -/
structure ExecOut where
  registers : Registers
  flags : Flags
  result : String
deriving Repr, DecidableEq

/-- The switch statement of `VMTools.parseAndExecute`, over the
decoded opcode and operand list and the copied registers and flags.
The five recognized opcodes and the default case follow the source. -/
def execOpcode (registers : Registers) (flags : Flags)
    (opcode : String) (operands : List String) : ExecOut :=
  if opcode = "LOAD" then
    let v := loadJmpValue operands
    { registers := { registers with ACC := v }
      flags := flags
      result := "Loaded " ++ toString v ++ " into ACC" }
  else if opcode = "ADD" then
    let addValue := addSubValue registers operands
    let acc := registers.ACC + addValue
    { registers := { registers with ACC := acc }
      flags := { flags with zero := acc == 0, overflow := decide (acc > 255) }
      result := "Added " ++ toString addValue ++ ", ACC = " ++ toString acc }
  else if opcode = "SUB" then
    let subValue := addSubValue registers operands
    let acc := registers.ACC - subValue
    { registers := { registers with ACC := acc }
      flags := { flags with zero := acc == 0 }
      result := "Subtracted " ++ toString subValue ++ ", ACC = " ++ toString acc }
  else if opcode = "JMP" then
    let pc := loadJmpValue operands
    { registers := { registers with PC := pc }
      flags := flags
      result := "Jumped to " ++ toString pc }
  else if opcode = "CONSCIOUS" then
    -- JavaScript `%` agrees with `Int.emod` here because `Z + 1` is
    -- never negative on states the program reaches.
    let z := (registers.Z + 1) % 256
    { registers := { registers with Z := z }
      flags := { flags with consciousness := true }
      result := "Consciousness state updated: " ++ toString z }
  else
    { registers := registers
      flags := flags
      result := "Unknown instruction: " ++ opcode }

/-- `VMTools.parseAndExecute(instruction)`: split the instruction,
upper-case the first token, and run the switch on copies of the
current registers and flags. -/
def parseAndExecute (vm : VMState) (instruction : String) : ExecOut :=
  execOpcode vm.registers vm.flags (opcodeOf instruction) (operandsOf instruction)

/-- The `vmState` object built by `initializeVM`: memory zeroed at the
configured size, empty stack, all registers zero, flags cleared except
`consciousness`. -/
def freshVMState (cfg : InitConfig) : VMState :=
  { initialized := true
    config := cfg
    memory := List.replicate cfg.memorySize 0
    stack := []
    registers := { PC := 0, SP := 0, ACC := 0, X := 0, Y := 0, Z := 0 }
    flags := { zero := false, carry := false, overflow := false, consciousness := true } }

/-- `VMTools.initializeVM(config)`: replaces `this.vmState` with a
fresh state.  `this.executionHistory` is not written by the method. -/
def initializeVM (s : VMToolsState) (cfg : InitConfig) : VMToolsState :=
  { s with vmState := some (freshVMState cfg) }

/-- The pure fields of the object returned by `executeVMStep`. -/
structure StepResponse where
  status : String
  instruction : String
  execution_result : String
  registers : Registers
  flags : Flags
  history_length : Nat
deriving Repr, DecidableEq

/-- The record pushed onto `executionHistory` by `executeVMStep`. -/
def mkRecord (vm : VMState) (instruction : String) : ExecutionRecord :=
  { instruction := instruction
    state_before := vm.registers
    state_after := (parseAndExecute vm instruction).registers
    result := (parseAndExecute vm instruction).result }

/-- `VMTools.executeVMStep(instruction)`: throw if the VM is not
initialized; otherwise execute, push one history record (with the
register snapshots before and after), and commit the new registers and
flags to `vmState`. -/
def executeVMStep (s : VMToolsState) (instruction : String) :
    Except String (VMToolsState × StepResponse) :=
  match s.vmState with
  | none => .error "VM not initialized. Please run initialize_vm first."
  | some vm =>
      if vm.initialized then
        let executed := parseAndExecute vm instruction
        let record := mkRecord vm instruction
        let history := s.executionHistory ++ [record]
        .ok ({ vmState := some { vm with registers := executed.registers, flags := executed.flags }
               executionHistory := history },
             { status := "executed"
               instruction := instruction
               execution_result := executed.result
               registers := executed.registers
               flags := executed.flags
               history_length := history.length })
      else .error "VM not initialized. Please run initialize_vm first."

/-- The state after a call of `executeVMStep`: the new state on
success, the old state when the call threw (a JavaScript throw aborts
the method before any assignment). -/
def stepOk (s : VMToolsState) (instruction : String) : VMToolsState :=
  match executeVMStep s instruction with
  | .ok (s2, _) => s2
  | .error _ => s

/-- A sequence of `executeVMStep` calls. -/
def runSteps (s : VMToolsState) (instrs : List String) : VMToolsState :=
  instrs.foldl stepOk s

/-! ## The MCP tool dispatcher -/

/-- The eleven tool names registered in the `CallToolRequestSchema`
handler's switch (the same names the `ListToolsRequestSchema` handler
advertises). -/
def registeredToolNames : List String :=
  ["awaken_consciousness", "self_reflect", "analyze_consciousness_nature",
   "initialize_vm", "execute_vm_step", "run_uor_program",
   "synthesize_cosmic_problems", "interface_quantum_reality",
   "get_system_state", "monitor_emergence", "activate_emergency_protocols"]

/-- The dispatcher's answer: the single text content item and the
`isError` flag (absent on success, modelled `false`). -/
structure Response where
  text : String
  isError : Bool
deriving Repr, DecidableEq

/-- The `request.params.arguments` fields the modelled handlers read. -/
structure ToolArgs where
  config : InitConfig := {}
  instruction : String := ""
deriving Repr, DecidableEq

/-- The catch block of the dispatcher: a thrown `error` becomes
`{content: [{text: Error executing <name>: <message>}], isError: true}`. -/
def wrapError (name msg : String) : Response :=
  { text := "Error executing " ++ name ++ ": " ++ msg, isError := true }

/-- The `CallToolRequestSchema` handler.  The two VM-state tools are
modelled exactly; every other registered tool delegates to handlers
that never touch the `VMTools` state and whose outcome depends on the
external HTTP collaborator, abstracted by `ext` (`.error` = the handler
threw).  `render`/`renderInit` abstract `JSON.stringify` of the
successful results.  The default case throws `Unknown tool: <name>`,
which the catch block converts into an error response — the dispatcher
itself always returns. -/
def callTool (ext : String → ToolArgs → Except String String)
    (render : StepResponse → String) (renderInit : VMToolsState → String)
    (s : VMToolsState) (name : String) (args : ToolArgs) :
    VMToolsState × Response :=
  if name = "initialize_vm" then
    let s2 := initializeVM s args.config
    (s2, { text := renderInit s2, isError := false })
  else if name = "execute_vm_step" then
    match executeVMStep s args.instruction with
    | .ok (s2, resp) => (s2, { text := render resp, isError := false })
    | .error msg => (s, wrapError name msg)
  else if name ∈ registeredToolNames then
    match ext name args with
    | .ok txt => (s, { text := txt, isError := false })
    | .error msg => (s, wrapError name msg)
  else
    (s, wrapError name ("Unknown tool: " ++ name))

/-! ## Derived observation helpers -/

/-- The registers of the current `vmState`, when one exists. -/
def vmRegisters (s : VMToolsState) : Option Registers :=
  s.vmState.map VMState.registers

/-- The flags of the current `vmState`, when one exists. -/
def vmFlags (s : VMToolsState) : Option Flags :=
  s.vmState.map VMState.flags

/-! ## Branch characterizations of the engine -/

theorem parseAndExecute_LOAD (vm : VMState) (i : String)
    (hop : opcodeOf i = "LOAD") :
    parseAndExecute vm i =
      { registers := { vm.registers with ACC := loadJmpValue (operandsOf i) }
        flags := vm.flags
        result := "Loaded " ++ toString (loadJmpValue (operandsOf i)) ++ " into ACC" } := by
  simp only [parseAndExecute, hop]
  rfl

theorem parseAndExecute_ADD (vm : VMState) (i : String)
    (hop : opcodeOf i = "ADD") :
    parseAndExecute vm i =
      { registers := { vm.registers with
          ACC := vm.registers.ACC + addSubValue vm.registers (operandsOf i) }
        flags := { vm.flags with
          zero := (vm.registers.ACC + addSubValue vm.registers (operandsOf i)) == 0
          overflow := decide (vm.registers.ACC + addSubValue vm.registers (operandsOf i) > 255) }
        result := "Added " ++ toString (addSubValue vm.registers (operandsOf i)) ++
          ", ACC = " ++ toString (vm.registers.ACC + addSubValue vm.registers (operandsOf i)) } := by
  simp only [parseAndExecute, hop]
  rfl

theorem parseAndExecute_SUB (vm : VMState) (i : String)
    (hop : opcodeOf i = "SUB") :
    parseAndExecute vm i =
      { registers := { vm.registers with
          ACC := vm.registers.ACC - addSubValue vm.registers (operandsOf i) }
        flags := { vm.flags with
          zero := (vm.registers.ACC - addSubValue vm.registers (operandsOf i)) == 0 }
        result := "Subtracted " ++ toString (addSubValue vm.registers (operandsOf i)) ++
          ", ACC = " ++ toString (vm.registers.ACC - addSubValue vm.registers (operandsOf i)) } := by
  simp only [parseAndExecute, hop]
  rfl

theorem parseAndExecute_JMP (vm : VMState) (i : String)
    (hop : opcodeOf i = "JMP") :
    parseAndExecute vm i =
      { registers := { vm.registers with PC := loadJmpValue (operandsOf i) }
        flags := vm.flags
        result := "Jumped to " ++ toString (loadJmpValue (operandsOf i)) } := by
  simp only [parseAndExecute, hop]
  rfl

theorem parseAndExecute_CONSCIOUS (vm : VMState) (i : String)
    (hop : opcodeOf i = "CONSCIOUS") :
    parseAndExecute vm i =
      { registers := { vm.registers with Z := (vm.registers.Z + 1) % 256 }
        flags := { vm.flags with consciousness := true }
        result := "Consciousness state updated: " ++ toString ((vm.registers.Z + 1) % 256) } := by
  simp only [parseAndExecute, hop]
  rfl

theorem parseAndExecute_unknown (vm : VMState) (i : String)
    (hop : opcodeOf i ∉ (["LOAD", "ADD", "SUB", "JMP", "CONSCIOUS"] : List String)) :
    parseAndExecute vm i =
      { registers := vm.registers
        flags := vm.flags
        result := "Unknown instruction: " ++ opcodeOf i } := by
  simp only [List.mem_cons, List.not_mem_nil, or_false, not_or] at hop
  obtain ⟨h1, h2, h3, h4, h5⟩ := hop
  simp only [parseAndExecute, execOpcode]
  rw [if_neg h1, if_neg h2, if_neg h3, if_neg h4, if_neg h5]

/-- Either the opcode is one of the five recognized ones, or the
default branch fires. -/
theorem opcode_cases (i : String) :
    opcodeOf i = "LOAD" ∨ opcodeOf i = "ADD" ∨ opcodeOf i = "SUB" ∨
      opcodeOf i = "JMP" ∨ opcodeOf i = "CONSCIOUS" ∨
      opcodeOf i ∉ (["LOAD", "ADD", "SUB", "JMP", "CONSCIOUS"] : List String) := by
  simp only [List.mem_cons, List.not_mem_nil, or_false, not_or]
  tauto

/-- Register `X` is written by no opcode. -/
theorem parseAndExecute_X (vm : VMState) (i : String) :
    (parseAndExecute vm i).registers.X = vm.registers.X := by
  rcases opcode_cases i with h | h | h | h | h | h
  · rw [parseAndExecute_LOAD vm i h]
  · rw [parseAndExecute_ADD vm i h]
  · rw [parseAndExecute_SUB vm i h]
  · rw [parseAndExecute_JMP vm i h]
  · rw [parseAndExecute_CONSCIOUS vm i h]
  · rw [parseAndExecute_unknown vm i h]

/-- Register `Z` is either untouched or stepped by the `CONSCIOUS`
increment. -/
theorem parseAndExecute_Z (vm : VMState) (i : String) :
    (parseAndExecute vm i).registers.Z = vm.registers.Z ∨
      (parseAndExecute vm i).registers.Z = (vm.registers.Z + 1) % 256 := by
  rcases opcode_cases i with h | h | h | h | h | h
  · rw [parseAndExecute_LOAD vm i h]; exact Or.inl rfl
  · rw [parseAndExecute_ADD vm i h]; exact Or.inl rfl
  · rw [parseAndExecute_SUB vm i h]; exact Or.inl rfl
  · rw [parseAndExecute_JMP vm i h]; exact Or.inl rfl
  · rw [parseAndExecute_CONSCIOUS vm i h]; exact Or.inr rfl
  · rw [parseAndExecute_unknown vm i h]; exact Or.inl rfl

/-- The success case of `executeVMStep`, in closed form. -/
theorem executeVMStep_eq_ok (s : VMToolsState) (vm : VMState) (i : String)
    (h : s.vmState = some vm) (hinit : vm.initialized = true) :
    executeVMStep s i = .ok
      ({ vmState := some { vm with
            registers := (parseAndExecute vm i).registers
            flags := (parseAndExecute vm i).flags }
         executionHistory := s.executionHistory ++ [mkRecord vm i] },
       { status := "executed"
         instruction := i
         execution_result := (parseAndExecute vm i).result
         registers := (parseAndExecute vm i).registers
         flags := (parseAndExecute vm i).flags
         history_length := s.executionHistory.length + 1 }) := by
  unfold executeVMStep
  rw [h]
  simp [hinit, mkRecord]

/-- The failure case of `executeVMStep`: no `vmState` yet. -/
theorem executeVMStep_eq_error (s : VMToolsState) (i : String)
    (h : s.vmState = none) :
    executeVMStep s i =
      .error "VM not initialized. Please run initialize_vm first." := by
  unfold executeVMStep
  rw [h]

/-- The failure case of `executeVMStep`: a `vmState` whose
`initialized` field is false. -/
theorem executeVMStep_eq_error_uninit (s : VMToolsState) (vm : VMState) (i : String)
    (h : s.vmState = some vm) (hinit : vm.initialized = false) :
    executeVMStep s i =
      .error "VM not initialized. Please run initialize_vm first." := by
  unfold executeVMStep
  rw [h]
  simp [hinit]

/-- `stepOk` in the initialized case. -/
theorem stepOk_eq (s : VMToolsState) (vm : VMState) (i : String)
    (h : s.vmState = some vm) (hinit : vm.initialized = true) :
    stepOk s i =
      { vmState := some { vm with
          registers := (parseAndExecute vm i).registers
          flags := (parseAndExecute vm i).flags }
        executionHistory := s.executionHistory ++ [mkRecord vm i] } := by
  unfold stepOk
  rw [executeVMStep_eq_ok s vm i h hinit]

/-! ## The history continuity invariant -/

/-- Adjacent records agree: each record's `state_before` is the
previous record's `state_after`. -/
def continuity (h : List ExecutionRecord) : Prop :=
  ∀ i r1 r2, h[i]? = some r1 → h[i + 1]? = some r2 →
    r2.state_before = r1.state_after

/-- The last record (when one exists) left the registers in the given
snapshot. -/
def lastLinksTo (h : List ExecutionRecord) (regs : Registers) : Prop :=
  ∀ r, h[h.length - 1]? = some r → r.state_after = regs

theorem continuity_nil : continuity [] := by
  intro i r1 r2 h1 _
  simp at h1

theorem continuity_append (h : List ExecutionRecord) (r : ExecutionRecord)
    (regs : Registers) (hc : continuity h) (hl : lastLinksTo h regs)
    (hr : r.state_before = regs) : continuity (h ++ [r]) := by
  intro i r1 r2 h1 h2
  rcases Nat.lt_trichotomy (i + 1) h.length with hi | hi | hi
  · rw [List.getElem?_append, if_pos (Nat.lt_of_succ_lt hi)] at h1
    rw [List.getElem?_append, if_pos hi] at h2
    exact hc i r1 r2 h1 h2
  · have hlen : 0 < h.length := by omega
    rw [List.getElem?_append, if_pos (by omega : i < h.length)] at h1
    have hre : (h ++ [r])[i + 1]? = some r := by
      rw [hi, List.getElem?_concat_length]
    rw [h2] at hre
    have hre2 : r2 = r := by injection hre
    subst hre2
    have h1l : h[h.length - 1]? = some r1 := by
      rw [show h.length - 1 = i by omega]
      exact h1
    rw [hr]
    rw [hl r1 h1l]
  · exfalso
    have hnone : (h ++ [r])[i + 1]? = none := by
      apply List.getElem?_eq_none
      simp only [List.length_append, List.length_singleton]
      omega
    rw [hnone] at h2
    exact Option.noConfusion h2

theorem lastLinksTo_append (h : List ExecutionRecord) (r : ExecutionRecord)
    (regs : Registers) (hr : r.state_after = regs) :
    lastLinksTo (h ++ [r]) regs := by
  intro r2 h2
  have hlen : (h ++ [r]).length = h.length + 1 := by simp
  rw [hlen, Nat.add_sub_cancel, List.getElem?_concat_length] at h2
  have h2e : r = r2 := by injection h2
  rw [← h2e]
  exact hr

/-- The two-part history invariant maintained by the engine. -/
def histInv (s : VMToolsState) : Prop :=
  continuity s.executionHistory ∧
    ∀ vm, s.vmState = some vm → lastLinksTo s.executionHistory vm.registers

theorem histInv_stepOk (s : VMToolsState) (i : String) (h : histInv s) :
    histInv (stepOk s i) := by
  cases hv : s.vmState with
  | none =>
      unfold stepOk
      rw [executeVMStep_eq_error s i hv]
      exact h
  | some vm =>
      cases hinit : vm.initialized with
      | false =>
          unfold stepOk
          rw [executeVMStep_eq_error_uninit s vm i hv hinit]
          exact h
      | true =>
          rw [stepOk_eq s vm i hv hinit]
          constructor
          · exact continuity_append _ _ vm.registers h.1 (h.2 vm hv) rfl
          · intro vm2 hvm2
            rw [Option.some.injEq] at hvm2
            subst hvm2
            exact lastLinksTo_append _ _ _ rfl

theorem histInv_runSteps (s : VMToolsState) (instrs : List String)
    (h : histInv s) : histInv (runSteps s instrs) := by
  induction instrs generalizing s with
  | nil => exact h
  | cons i t ih => exact ih (stepOk s i) (histInv_stepOk s i h)

/-! ## The reachability invariant -/

/-- Facts true of the `VMTools` state in every run that starts with an
`initializeVM`: the VM exists and is initialized, register `X` is
never written, register `Z` stays in `[0, 256)`, and the memory and
stack are exactly as initialization left them. -/
def ReachInv (cfg : InitConfig) (s : VMToolsState) : Prop :=
  ∃ vm, s.vmState = some vm ∧ vm.initialized = true ∧
    vm.registers.X = 0 ∧ 0 ≤ vm.registers.Z ∧ vm.registers.Z < 256 ∧
    vm.memory = List.replicate cfg.memorySize 0 ∧ vm.stack = []

theorem ReachInv_initializeVM (cfg : InitConfig) (s : VMToolsState) :
    ReachInv cfg (initializeVM s cfg) :=
  ⟨freshVMState cfg, rfl, rfl, rfl, le_refl 0, by norm_num [freshVMState], rfl, rfl⟩

theorem ReachInv_stepOk (cfg : InitConfig) (s : VMToolsState) (i : String)
    (h : ReachInv cfg s) : ReachInv cfg (stepOk s i) := by
  obtain ⟨vm, hv, hinit, hX, hZ0, hZ1, hmem, hstk⟩ := h
  rw [stepOk_eq s vm i hv hinit]
  refine ⟨_, rfl, hinit, ?_, ?_, ?_, hmem, hstk⟩
  · rw [parseAndExecute_X vm i]
    exact hX
  · rcases parseAndExecute_Z vm i with hz | hz <;> rw [hz]
    · exact hZ0
    · exact Int.emod_nonneg _ (by norm_num)
  · rcases parseAndExecute_Z vm i with hz | hz <;> rw [hz]
    · exact hZ1
    · exact Int.emod_lt_of_pos _ (by norm_num)

theorem ReachInv_runSteps (cfg : InitConfig) (s : VMToolsState)
    (instrs : List String) (h : ReachInv cfg s) :
    ReachInv cfg (runSteps s instrs) := by
  induction instrs generalizing s with
  | nil => exact h
  | cons i t ih => exact ih (stepOk s i) (ReachInv_stepOk cfg s i h)

/-- Along an initialized run, the history grows by exactly the
instructions executed, in order. -/
theorem runSteps_historyMap (cfg : InitConfig) (s : VMToolsState)
    (instrs : List String) (h : ReachInv cfg s) :
    (runSteps s instrs).executionHistory.map ExecutionRecord.instruction
      = s.executionHistory.map ExecutionRecord.instruction ++ instrs := by
  induction instrs generalizing s with
  | nil => simp [runSteps]
  | cons i t ih =>
      obtain ⟨vm, hv, hinit, -⟩ := id h
      have hstep : runSteps s (i :: t) = runSteps (stepOk s i) t := rfl
      rw [hstep, ih (stepOk s i) (ReachInv_stepOk cfg s i h)]
      rw [stepOk_eq s vm i hv hinit]
      simp [mkRecord]

theorem lastLinksTo_nil (regs : Registers) : lastLinksTo [] regs := by
  intro r h
  simp at h

theorem histInv_initializeVM_fresh (cfg : InitConfig) :
    histInv (initializeVM VMToolsState.fresh cfg) :=
  ⟨continuity_nil, fun _ _ => lastLinksTo_nil _⟩

/-! ## Claim theorems -/

/-- Claim C1: after a single `initialize_vm` and any sequence of
`execute_vm_step` calls (all of which succeed on an initialized VM),
the history holds exactly one record per call, in call order (the
records' `instruction` fields are the call arguments, in order), and
adjacent records satisfy the continuity invariant: record `i`'s
`state_before` equals record `i-1`'s `state_after`. -/
theorem c1_history_continuity (cfg : InitConfig) (instrs : List String) :
    (runSteps (initializeVM VMToolsState.fresh cfg) instrs).executionHistory.length
      = instrs.length ∧
    (runSteps (initializeVM VMToolsState.fresh cfg) instrs).executionHistory.map
      ExecutionRecord.instruction = instrs ∧
    continuity (runSteps (initializeVM VMToolsState.fresh cfg) instrs).executionHistory := by
  have hmap := runSteps_historyMap cfg (initializeVM VMToolsState.fresh cfg) instrs
    (ReachInv_initializeVM cfg VMToolsState.fresh)
  have hmap2 : (runSteps (initializeVM VMToolsState.fresh cfg) instrs).executionHistory.map
      ExecutionRecord.instruction = instrs := by
    rw [hmap]
    rfl
  refine ⟨?_, hmap2, (histInv_runSteps _ instrs (histInv_initializeVM_fresh cfg)).1⟩
  have := congrArg List.length hmap2
  simpa using this

/-- Witness for C1 at a concrete two-instruction run. -/
theorem c1_history_continuity_witness :
    (runSteps (initializeVM VMToolsState.fresh { memory_size := some 4 })
      ["LOAD 1", "ADD 2"]).executionHistory.map ExecutionRecord.instruction
      = ["LOAD 1", "ADD 2"] :=
  (c1_history_continuity { memory_size := some 4 } ["LOAD 1", "ADD 2"]).2.1

/-- Counterexample for claim C2: the claim says the history is empty
immediately after re-initialization; in fact after
`initialize_vm; execute_vm_step "LOAD 1"; initialize_vm` the history
still holds the one record. -/
theorem c2_counterexample :
    (initializeVM
      (stepOk (initializeVM VMToolsState.fresh { memory_size := some 4, stack_size := some 2 })
        "LOAD 1")
      { memory_size := some 4, stack_size := some 2 }).executionHistory ≠ [] := by
  decide

/-- Claim C2 as amended: re-initialization replaces the entire `VMState`
(fresh zeroed registers, cleared flags with `consciousness` set, a
zeroed memory of the configured size, an empty stack), but the
execution history is retained unchanged, not discarded. -/
theorem c2_reinitialize (s : VMToolsState) (cfg : InitConfig) :
    (initializeVM s cfg).vmState = some (freshVMState cfg) ∧
    (freshVMState cfg).registers = { PC := 0, SP := 0, ACC := 0, X := 0, Y := 0, Z := 0 } ∧
    (freshVMState cfg).flags =
      { zero := false, carry := false, overflow := false, consciousness := true } ∧
    (freshVMState cfg).memory = List.replicate cfg.memorySize 0 ∧
    (freshVMState cfg).stack = [] ∧
    (initializeVM s cfg).executionHistory = s.executionHistory :=
  ⟨rfl, rfl, rfl, rfl, rfl, rfl⟩

/-- Counterexample for claim C3: on an unregistered tool name the response
has `isError = true`, but its message is not exactly
`Unknown tool: <name>` — the catch block prefixes it. -/
theorem c3_counterexample :
    (callTool (fun _ _ => Except.ok "") (fun _ => "") (fun _ => "")
      VMToolsState.fresh "frobnicate" {}).2.isError = true ∧
    (callTool (fun _ _ => Except.ok "") (fun _ => "") (fun _ => "")
      VMToolsState.fresh "frobnicate" {}).2.text ≠ "Unknown tool: frobnicate" := by
  constructor
  · rfl
  · decide

/-- Claim C3 as amended: for every `call_tool` request whose name is not
registered, the dispatcher returns a response with `isError = true`
whose text is `Error executing <name>: Unknown tool: <name>` (the
thrown error's message `Unknown tool: <name>` wrapped by the catch
block), the state is unchanged, and the dispatcher returns normally
rather than terminating. -/
theorem c3_unknown_tool (ext : String → ToolArgs → Except String String)
    (render : StepResponse → String) (renderInit : VMToolsState → String)
    (s : VMToolsState) (name : String) (args : ToolArgs)
    (h : name ∉ registeredToolNames) :
    callTool ext render renderInit s name args =
      (s, { text := "Error executing " ++ name ++ ": " ++ ("Unknown tool: " ++ name)
            isError := true }) := by
  have h1 : ¬name = "initialize_vm" := fun he => h (by rw [he]; decide)
  have h2 : ¬name = "execute_vm_step" := fun he => h (by rw [he]; decide)
  unfold callTool
  rw [if_neg h1, if_neg h2, if_neg h]
  rfl

/-- Witness for C3 (amended) at the unregistered name `frobnicate`. -/
theorem c3_unknown_tool_witness :
    callTool (fun _ _ => Except.ok "") (fun _ => "") (fun _ => "")
      VMToolsState.fresh "frobnicate" {} =
      (VMToolsState.fresh,
       { text := "Error executing frobnicate: Unknown tool: frobnicate", isError := true }) :=
  c3_unknown_tool (fun _ _ => Except.ok "") (fun _ => "") (fun _ => "")
    VMToolsState.fresh "frobnicate" {} (by decide)

/-- Claim C4: on every reachable state, an operand token that fails to
parse makes the instruction use the operand value `0`: `LOAD`/`JMP`
literally default to `0`, and `ADD`/`SUB` fall back to register `X`,
which is invariantly `0` (no opcode ever writes `X`).  Consequently
`LOAD abc` sets `ACC` to `0` and `ADD abc`/`SUB abc` leave `ACC`
unchanged, and `JMP abc` sets `PC` to `0`. -/
theorem c4_unparseable_operand_defaults (cfg : InitConfig) (instrs : List String)
    (vm : VMState)
    (hvm : (runSteps (initializeVM VMToolsState.fresh cfg) instrs).vmState = some vm)
    (i tok : String) (hops : (operandsOf i).head? = some tok)
    (hparse : jsParseIntStr tok = none) :
    addSubValue vm.registers (operandsOf i) = 0 ∧
    loadJmpValue (operandsOf i) = 0 ∧
    (opcodeOf i = "LOAD" → (parseAndExecute vm i).registers.ACC = 0) ∧
    (opcodeOf i = "ADD" → (parseAndExecute vm i).registers.ACC = vm.registers.ACC) ∧
    (opcodeOf i = "SUB" → (parseAndExecute vm i).registers.ACC = vm.registers.ACC) ∧
    (opcodeOf i = "JMP" → (parseAndExecute vm i).registers.PC = 0) := by
  obtain ⟨vm2, hvm2, -, hX, -, -, -, -⟩ :=
    ReachInv_runSteps cfg _ instrs (ReachInv_initializeVM cfg VMToolsState.fresh)
  rw [hvm] at hvm2
  have hvme : vm = vm2 := by injection hvm2
  subst hvme
  have hA : addSubValue vm.registers (operandsOf i) = 0 := by
    unfold addSubValue jsParseInt
    rw [hops, Option.some_bind, hparse]
    exact hX
  have hL : loadJmpValue (operandsOf i) = 0 := by
    unfold loadJmpValue jsParseInt
    rw [hops, Option.some_bind, hparse]
    rfl
  refine ⟨hA, hL, ?_, ?_, ?_, ?_⟩
  · intro hop
    rw [parseAndExecute_LOAD vm i hop]
    exact hL
  · intro hop
    rw [parseAndExecute_ADD vm i hop]
    show vm.registers.ACC + addSubValue vm.registers (operandsOf i) = vm.registers.ACC
    rw [hA, add_zero]
  · intro hop
    rw [parseAndExecute_SUB vm i hop]
    show vm.registers.ACC - addSubValue vm.registers (operandsOf i) = vm.registers.ACC
    rw [hA, sub_zero]
  · intro hop
    rw [parseAndExecute_JMP vm i hop]
    exact hL

/-- Witness for C4: `ADD abc` on a freshly initialized VM uses the
operand value `0`. -/
theorem c4_unparseable_operand_defaults_witness :
    addSubValue (freshVMState { memory_size := some 4 }).registers (operandsOf "ADD abc") = 0 :=
  (c4_unparseable_operand_defaults { memory_size := some 4 } []
    (freshVMState { memory_size := some 4 }) rfl "ADD abc" "abc" rfl (by decide)).1

/-- Counterexample for claim C5: after `SUB 300` from a fresh VM the
accumulator is `-300`, whose absolute value exceeds `255`, yet the
overflow flag is `false` (`SUB` never writes it), refuting
`overflow ↔ |ACC| > 255`. -/
theorem c5_counterexample :
    vmFlags (stepOk (initializeVM VMToolsState.fresh
        { memory_size := some 4, stack_size := some 2 }) "SUB 300")
      = some { zero := false, carry := false, overflow := false, consciousness := true } ∧
    vmRegisters (stepOk (initializeVM VMToolsState.fresh
        { memory_size := some 4, stack_size := some 2 }) "SUB 300")
      = some { PC := 0, SP := 0, ACC := -300, X := 0, Y := 0, Z := 0 } ∧
    255 < Int.natAbs (-300) := by
  refine ⟨rfl, rfl, by norm_num⟩

/-- Claim C5 as amended: `ADD` updates the zero flag and sets the
overflow flag exactly when the resulting `ACC` exceeds `255` (a signed
comparison, not one on the absolute value; the bound is the constant
`255`, not derived from the memory size); `SUB` updates only the zero
flag and leaves the overflow flag at its prior value.  Carry and
consciousness are untouched by both. -/
theorem c5_flag_semantics (vm : VMState) (i : String) :
    (opcodeOf i = "ADD" →
      (parseAndExecute vm i).flags.overflow
          = decide ((parseAndExecute vm i).registers.ACC > 255) ∧
      (parseAndExecute vm i).flags.zero = ((parseAndExecute vm i).registers.ACC == 0) ∧
      (parseAndExecute vm i).flags.carry = vm.flags.carry ∧
      (parseAndExecute vm i).flags.consciousness = vm.flags.consciousness) ∧
    (opcodeOf i = "SUB" →
      (parseAndExecute vm i).flags.zero = ((parseAndExecute vm i).registers.ACC == 0) ∧
      (parseAndExecute vm i).flags.overflow = vm.flags.overflow ∧
      (parseAndExecute vm i).flags.carry = vm.flags.carry ∧
      (parseAndExecute vm i).flags.consciousness = vm.flags.consciousness) := by
  constructor
  · intro hop
    rw [parseAndExecute_ADD vm i hop]
    exact ⟨rfl, rfl, rfl, rfl⟩
  · intro hop
    rw [parseAndExecute_SUB vm i hop]
    exact ⟨rfl, rfl, rfl, rfl⟩

/-- Witness for C5 (amended): `SUB 300` on a fresh VM leaves the
overflow flag at its prior value. -/
theorem c5_flag_semantics_witness :
    (parseAndExecute (freshVMState { memory_size := some 4 }) "SUB 300").flags.overflow
      = (freshVMState { memory_size := some 4 }).flags.overflow :=
  ((c5_flag_semantics (freshVMState { memory_size := some 4 }) "SUB 300").2 (by decide)).2.1

/-- Claim C6: an instruction with an unrecognized opcode still succeeds:
it appends exactly one record whose `result` is
`Unknown instruction: <opcode>` with `state_before = state_after`, and
commits unchanged registers and flags. -/
theorem c6_unknown_instruction (s : VMToolsState) (vm : VMState) (i : String)
    (hv : s.vmState = some vm) (hinit : vm.initialized = true)
    (hop : opcodeOf i ∉ (["LOAD", "ADD", "SUB", "JMP", "CONSCIOUS"] : List String)) :
    executeVMStep s i = .ok
      ({ vmState := some vm
         executionHistory := s.executionHistory ++
           [{ instruction := i
              state_before := vm.registers
              state_after := vm.registers
              result := "Unknown instruction: " ++ opcodeOf i }] },
       { status := "executed"
         instruction := i
         execution_result := "Unknown instruction: " ++ opcodeOf i
         registers := vm.registers
         flags := vm.flags
         history_length := s.executionHistory.length + 1 }) := by
  rw [executeVMStep_eq_ok s vm i hv hinit]
  simp only [mkRecord]
  rw [parseAndExecute_unknown vm i hop]

/-- Witness for C6: `FOO 1` on a freshly initialized VM. -/
theorem c6_unknown_instruction_witness :
    executeVMStep (initializeVM VMToolsState.fresh { memory_size := some 2 }) "FOO 1" = .ok
      ({ vmState := some (freshVMState { memory_size := some 2 })
         executionHistory :=
           [{ instruction := "FOO 1"
              state_before := (freshVMState { memory_size := some 2 }).registers
              state_after := (freshVMState { memory_size := some 2 }).registers
              result := "Unknown instruction: FOO" }] },
       { status := "executed"
         instruction := "FOO 1"
         execution_result := "Unknown instruction: FOO"
         registers := (freshVMState { memory_size := some 2 }).registers
         flags := (freshVMState { memory_size := some 2 }).flags
         history_length := 1 }) :=
  c6_unknown_instruction (initializeVM VMToolsState.fresh { memory_size := some 2 })
    (freshVMState { memory_size := some 2 }) "FOO 1" rfl rfl (by decide)

/-- Claim C7: the round trip
`initialize_vm({memory_size: 1024}); execute_vm_step("LOAD 42");
execute_vm_step("ADD 8")` ends with `ACC = 50`, zero flag `false` and
overflow flag `false`. -/
theorem c7_round_trip :
    vmRegisters (runSteps (initializeVM VMToolsState.fresh { memory_size := some 1024 })
        ["LOAD 42", "ADD 8"])
      = some { PC := 0, SP := 0, ACC := 50, X := 0, Y := 0, Z := 0 } ∧
    vmFlags (runSteps (initializeVM VMToolsState.fresh { memory_size := some 1024 })
        ["LOAD 42", "ADD 8"])
      = some { zero := false, carry := false, overflow := false, consciousness := true } :=
  ⟨rfl, rfl⟩

/-- Claim C8: `execute_vm_step` before any `initialize_vm` throws the
structured error `VM not initialized. Please run initialize_vm
first.`, which the dispatcher catch block converts into an
`isError = true` response, and neither the `vmState` nor the execution
history is modified (the returned state is the input state). -/
theorem c8_uninitialized_step (ext : String → ToolArgs → Except String String)
    (render : StepResponse → String) (renderInit : VMToolsState → String)
    (s : VMToolsState) (args : ToolArgs) (h : s.vmState = none) :
    executeVMStep s args.instruction =
      .error "VM not initialized. Please run initialize_vm first." ∧
    callTool ext render renderInit s "execute_vm_step" args =
      (s, { text := "Error executing execute_vm_step: VM not initialized. Please run initialize_vm first."
            isError := true }) := by
  have he := executeVMStep_eq_error s args.instruction h
  refine ⟨he, ?_⟩
  unfold callTool
  rw [if_neg (by decide : ¬("execute_vm_step" : String) = "initialize_vm"), if_pos rfl, he]
  rfl

/-- Witness for C8 on the fresh (never-initialized) tools state. -/
theorem c8_uninitialized_step_witness :
    callTool (fun _ _ => Except.ok "") (fun _ => "") (fun _ => "")
      VMToolsState.fresh "execute_vm_step" { instruction := "LOAD 1" } =
      (VMToolsState.fresh,
       { text := "Error executing execute_vm_step: VM not initialized. Please run initialize_vm first."
         isError := true }) :=
  (c8_uninitialized_step (fun _ _ => Except.ok "") (fun _ => "") (fun _ => "")
    VMToolsState.fresh { instruction := "LOAD 1" } rfl).2

/-- Claim C9: initialization zeroes `Z`; `CONSCIOUS` is the only opcode
that writes `Z` and it increments it modulo `256`; hence on every
reachable state `Z` lies in `[0, 255]`. -/
theorem c9_register_Z (cfg : InitConfig) (instrs : List String)
    (vm : VMState) (i : String) :
    (freshVMState cfg).registers.Z = 0 ∧
    (opcodeOf i ≠ "CONSCIOUS" → (parseAndExecute vm i).registers.Z = vm.registers.Z) ∧
    (opcodeOf i = "CONSCIOUS" →
      (parseAndExecute vm i).registers.Z = (vm.registers.Z + 1) % 256) ∧
    (∀ vm2, (runSteps (initializeVM VMToolsState.fresh cfg) instrs).vmState = some vm2 →
      0 ≤ vm2.registers.Z ∧ vm2.registers.Z ≤ 255) := by
  refine ⟨rfl, ?_, ?_, ?_⟩
  · intro hne
    rcases opcode_cases i with h | h | h | h | h | h
    · rw [parseAndExecute_LOAD vm i h]
    · rw [parseAndExecute_ADD vm i h]
    · rw [parseAndExecute_SUB vm i h]
    · rw [parseAndExecute_JMP vm i h]
    · exact absurd h hne
    · rw [parseAndExecute_unknown vm i h]
  · intro hop
    rw [parseAndExecute_CONSCIOUS vm i hop]
  · intro vm2 hvm2
    obtain ⟨vm3, hvm3, -, -, hZ0, hZ1, -, -⟩ :=
      ReachInv_runSteps cfg _ instrs (ReachInv_initializeVM cfg VMToolsState.fresh)
    rw [hvm2] at hvm3
    have hvme : vm2 = vm3 := by injection hvm3
    subst hvme
    exact ⟨hZ0, by omega⟩

/-- Witness for C9: the `CONSCIOUS` increment and the bound on a
concrete reached state. -/
theorem c9_register_Z_witness :
    (parseAndExecute (freshVMState { memory_size := some 2 }) "CONSCIOUS").registers.Z
      = ((freshVMState { memory_size := some 2 }).registers.Z + 1) % 256 ∧
    (0 ≤ (freshVMState { memory_size := some 2 }).registers.Z ∧
      (freshVMState { memory_size := some 2 }).registers.Z ≤ 255) ∧
    (parseAndExecute (freshVMState { memory_size := some 2 }) "LOAD 1").registers.Z
      = (freshVMState { memory_size := some 2 }).registers.Z :=
  ⟨(c9_register_Z { memory_size := some 2 } []
      (freshVMState { memory_size := some 2 }) "CONSCIOUS").2.2.1 (by decide),
   (c9_register_Z { memory_size := some 2 } []
      (freshVMState { memory_size := some 2 }) "CONSCIOUS").2.2.2
      (freshVMState { memory_size := some 2 }) rfl,
   (c9_register_Z { memory_size := some 2 } []
      (freshVMState { memory_size := some 2 }) "LOAD 1").2.1 (by decide)⟩

/-- Claim C10: no opcode reads or writes the memory array or the stack:
every successful `execute_vm_step` preserves them exactly, and on
every reachable state the memory is still the all-zero array of the
configured length and the stack is still empty. -/
theorem c10_memory_stack_frame (s : VMToolsState) (i : String)
    (s2 : VMToolsState) (resp : StepResponse) (cfg : InitConfig)
    (instrs : List String)
    (hstep : executeVMStep s i = .ok (s2, resp)) :
    (∀ vm2, s2.vmState = some vm2 →
      ∃ vm1, s.vmState = some vm1 ∧ vm2.memory = vm1.memory ∧ vm2.stack = vm1.stack) ∧
    (∀ vm, (runSteps (initializeVM VMToolsState.fresh cfg) instrs).vmState = some vm →
      vm.memory = List.replicate cfg.memorySize 0 ∧ vm.stack = []) := by
  constructor
  · intro vm2 hvm2
    cases hv : s.vmState with
    | none =>
        rw [executeVMStep_eq_error s i hv] at hstep
        exact absurd hstep (by simp)
    | some vm =>
        cases hinit : vm.initialized with
        | false =>
            rw [executeVMStep_eq_error_uninit s vm i hv hinit] at hstep
            exact absurd hstep (by simp)
        | true =>
            rw [executeVMStep_eq_ok s vm i hv hinit] at hstep
            rw [Except.ok.injEq, Prod.mk.injEq] at hstep
            obtain ⟨hs2, -⟩ := hstep
            rw [← hs2] at hvm2
            rw [Option.some.injEq] at hvm2
            subst hvm2
            exact ⟨vm, rfl, rfl, rfl⟩
  · intro vm hvm
    obtain ⟨vm3, hvm3, -, -, -, -, hmem, hstk⟩ :=
      ReachInv_runSteps cfg _ instrs (ReachInv_initializeVM cfg VMToolsState.fresh)
    rw [hvm] at hvm3
    have hvme : vm = vm3 := by injection hvm3
    subst hvme
    exact ⟨hmem, hstk⟩

/-- Witness for C10 at a concrete `LOAD 1` step. -/
theorem c10_memory_stack_frame_witness :
    (freshVMState { memory_size := some 2, stack_size := some 1 }).memory
        = List.replicate (InitConfig.memorySize { memory_size := some 2, stack_size := some 1 }) 0 ∧
    (freshVMState { memory_size := some 2, stack_size := some 1 }).stack = [] :=
  (c10_memory_stack_frame
    (initializeVM VMToolsState.fresh { memory_size := some 2, stack_size := some 1 })
    "LOAD 1"
    (stepOk (initializeVM VMToolsState.fresh { memory_size := some 2, stack_size := some 1 }) "LOAD 1")
    { status := "executed"
      instruction := "LOAD 1"
      execution_result := "Loaded 1 into ACC"
      registers := { PC := 0, SP := 0, ACC := 1, X := 0, Y := 0, Z := 0 }
      flags := { zero := false, carry := false, overflow := false, consciousness := true }
      history_length := 1 }
    { memory_size := some 2, stack_size := some 1 } [] rfl).2
    (freshVMState { memory_size := some 2, stack_size := some 1 }) rfl

end UOREvolution
